import Mathlib

/-!
Shallow embedding of `DataExtraction.py` (repository `InvestingCrawler`).

The module defines one class, `IndexHistoricalData`, whose instance fields are
`api_url`, `headers`, `data`, `query_time`, `response`, `observations` and
`latest_price`, plus two module-level dictionaries `CFD` and `HEADERS`.

Modelling conventions:
* Python dictionaries are association lists `PyDict`; dictionary values are
  `PyVal` (string or integer, the only kinds occurring in this module).
* The `data` field of the session holds a *reference* (an address into a heap
  `Nat → PyDict`), because `set_form_data` stores the caller's dictionary by
  reference and the field setters mutate it in place — Python aliasing is the
  subject of one of the properties below.
* Exceptions are the explicit sum `PyExc`; a method that can raise returns an
  `Effect` (or `Except PyExc World` for the plain setters) recording the state
  reached so far, the console lines printed, the files written and the
  exception, if any, that escaped the method.
* The numeric value `latest_price` is `PyNum`: a Python `int` (its initial
  value `0`) or a Python `float`, modelled as an exact decimal `DecFloat`
  (the scraped prices are short decimals).
* Collaborators (the HTTP transport, BeautifulSoup, `pandas.read_html`) are
  parameters of the fetch operations: `web` maps a URL to either a transport
  error reason or a response body, `soupLastLast` maps a page body to the list
  of text contents of the `span` elements with `id="last_last"` (which is the
  only query the code performs on the soup), `readHtml` maps a body to the
  list of parsed tables or a raised exception, and `post` maps the endpoint,
  form data and headers to a response body.
-/

/-- A Python dictionary value as used in this module: a string or an integer. -/
inductive PyVal where
  | str (s : String)
  | int (i : Int)
deriving Repr, DecidableEq

/-- A Python dictionary with string keys, as an insertion-ordered association list. -/
abbrev PyDict := List (String × PyVal)

/-- Python `d[k]` read: the value at the first matching key, if any. -/
def dictGet : PyDict → String → Option PyVal
  | [], _ => none
  | (k1, v1) :: rest, k => if k1 = k then some v1 else dictGet rest k

/-- Python `d[k] = v`: replace in place if the key exists, else append. -/
def dictSet : PyDict → String → PyVal → PyDict
  | [], k, v => [(k, v)]
  | (k1, v1) :: rest, k, v =>
    if k1 = k then (k1, v) :: rest else (k1, v1) :: dictSet rest k v

/-- The heap holding the dictionaries that are passed around by reference. -/
abbrev Heap := Nat → PyDict

/-- Overwrite the dictionary stored at address `r`. -/
def heapSet (h : Heap) (r : Nat) (d : PyDict) : Heap :=
  fun r1 => if r1 = r then d else h r1

/-- The Python exceptions this module can raise or catch.  `stateError` never
occurs in the code; it is the error kind named by the specification's error
taxonomy and is included so that statements about it can be expressed. -/
inductive PyExc where
  | typeError (msg : String)
  | keyError (key : String)
  | attributeError (msg : String)
  | indexError (msg : String)
  | valueError (msg : String)
  | stateError (msg : String)
deriving Repr, DecidableEq

/-- `true` exactly on the specification's `StateError` kind. -/
def isStateError : Option PyExc → Bool
  | some (PyExc.stateError _) => true
  | _ => false

/-- An exact decimal number `mant / 10 ^ scale`: the model of the Python
floats this module produces (scraped prices are short decimals, which
`float` represents exactly enough for `str` to print them back). -/
structure DecFloat where
  mant : Int
  scale : Nat
deriving Repr, DecidableEq

/-- The rational value of a `DecFloat`. -/
def DecFloat.toRat (x : DecFloat) : Rat := (x.mant : Rat) / (10 : Rat) ^ x.scale

/-- A Python number: an `int`, or a `float` modelled as an exact decimal. -/
inductive PyNum where
  | int (i : Int)
  | float (x : DecFloat)
deriving Repr, DecidableEq

/-- A `datetime.datetime` value, to second precision (the formats used by the
code never print below seconds). -/
structure PyDateTime where
  year : Nat
  month : Nat
  day : Nat
  hour : Nat
  minute : Nat
  second : Nat
deriving Repr, DecidableEq

/-- A calendar-valid timestamp with a four-digit year, the domain on which the
fixed-width `strftime` model below agrees with C `strftime`. -/
def ValidDateTime (t : PyDateTime) : Prop :=
  1000 ≤ t.year ∧ t.year ≤ 9999 ∧ 1 ≤ t.month ∧ t.month ≤ 12 ∧
    1 ≤ t.day ∧ t.day ≤ 31 ∧ t.hour ≤ 23 ∧ t.minute ≤ 59 ∧ t.second ≤ 59

/-- The decimal digit character for `n % 10`. -/
def digitChar (n : Nat) : Char := Char.ofNat (48 + n % 10)

/-- Zero-padded two-digit decimal rendering (`%m`, `%d`, `%H`, `%M`, `%S`). -/
def pad2 (n : Nat) : String := String.mk [digitChar (n / 10), digitChar n]

/-- Zero-padded four-digit decimal rendering (`%Y` for four-digit years). -/
def pad4 (n : Nat) : String :=
  String.mk [digitChar (n / 1000), digitChar (n / 100), digitChar (n / 10), digitChar n]

/-- `strftime("%Y-%m-%d %H:%M:%S")`, used by `print_data`. -/
def strftime_YmdHMS (t : PyDateTime) : String :=
  pad4 t.year ++ "-" ++ pad2 t.month ++ "-" ++ pad2 t.day ++ " " ++
    pad2 t.hour ++ ":" ++ pad2 t.minute ++ ":" ++ pad2 t.second

/-- `strftime("%Y%m%d_%H%M%S")`, used by `save_historical_data_to_csv`. -/
def strftime_Ymd_HMS (t : PyDateTime) : String :=
  (pad4 t.year ++ pad2 t.month ++ pad2 t.day) ++ "_" ++
    (pad2 t.hour ++ pad2 t.minute ++ pad2 t.second)

/-- `strftime("%m/%d/%Y")`, used for the default ending date. -/
def strftime_mdY (t : PyDateTime) : String :=
  pad2 t.month ++ "/" ++ pad2 t.day ++ "/" ++ pad4 t.year

/-- The value of a digit string read in base 10. -/
def digitsVal (cs : List Char) : Nat :=
  cs.foldl (fun a c => a * 10 + (c.toNat - 48)) 0

/-- Python `float(s)` on the grammar the scraped prices use: optional
surrounding spaces, an optional sign, and decimal digits with an optional
point.  Anything else raises `ValueError` — in particular a string containing
a comma does. -/
def pyFloat (s : String) : Except PyExc DecFloat :=
  let cs0 := s.data.dropWhile (fun c => c = ' ')
  let cs1 := (cs0.reverse.dropWhile (fun c => c = ' ')).reverse
  let signed : Int × List Char :=
    match cs1 with
    | '-' :: rest => (-1, rest)
    | '+' :: rest => (1, rest)
    | _ => (1, cs1)
  let intPart := signed.2.takeWhile Char.isDigit
  let rest := signed.2.drop intPart.length
  let err : PyExc := PyExc.valueError ("could not convert string to float: " ++ s)
  match rest with
  | [] =>
    if intPart.isEmpty then Except.error err
    else Except.ok ⟨signed.1 * (digitsVal intPart : Int), 0⟩
  | '.' :: frac =>
    if frac.all Char.isDigit && !(intPart.isEmpty && frac.isEmpty) then
      Except.ok ⟨signed.1 * ((digitsVal intPart * 10 ^ frac.length + digitsVal frac : Nat) : Int),
        frac.length⟩
    else Except.error err
  | _ => Except.error err

/-- Replace every occurrence of `old` (non-empty) by `new`, scanning left to
right; `fuel` bounds the recursion (the input length suffices). -/
def replaceFuel : Nat → List Char → List Char → List Char → List Char
  | 0, s, _, _ => s
  | fuel + 1, s, old, new =>
    match s with
    | [] => []
    | c :: rest =>
      if old.isPrefixOf (c :: rest) then
        new ++ replaceFuel fuel ((c :: rest).drop old.length) old new
      else c :: replaceFuel fuel rest old new

/-- Python `s.replace(old, new)` for a non-empty `old`: what line 177 of the
source *intends* to call (it actually spells the method `replae`). -/
def pyReplace (s old new : String) : String :=
  String.mk (replaceFuel s.data.length s.data old.data new.data)

/-- The decimal digit characters of `n`, most significant first (`fuel`-bounded
recursion; `fuel = n + 1` always suffices). -/
def natDigitsAux : Nat → Nat → List Char
  | 0, _ => []
  | fuel + 1, n => if n < 10 then [digitChar n] else natDigitsAux fuel (n / 10) ++ [digitChar n]

/-- The decimal digit characters of `n`, most significant first. -/
def natDigits (n : Nat) : List Char := natDigitsAux (n + 1) n

/-- Left-pad a digit list with zeros to width `w`. -/
def padZeros (cs : List Char) (w : Nat) : List Char :=
  List.replicate (w - cs.length) '0' ++ cs

/-- Python `str` of an int. -/
def intStr (i : Int) : String :=
  (if i < 0 then "-" else "") ++ String.mk (natDigits i.natAbs)

/-- Python `str` of a float whose value is a short exact decimal: integer
part, point, fractional digits with trailing zeros dropped, and `.0` for
integral values. -/
def floatRepr (x : DecFloat) : String :=
  let sign := if x.mant < 0 then "-" else ""
  let n := x.mant.natAbs
  let ip := n / 10 ^ x.scale
  let fr := n % 10 ^ x.scale
  let frCs := ((padZeros (natDigits fr) x.scale).reverse.dropWhile (fun c => c = '0')).reverse
  if frCs.isEmpty then sign ++ String.mk (natDigits ip) ++ ".0"
  else sign ++ String.mk (natDigits ip) ++ "." ++ String.mk frCs

/-- Python `str` / `"%s"` of a `PyNum`. -/
def pyNumStr : PyNum → String
  | PyNum.int i => intStr i
  | PyNum.float x => floatRepr x

/-- Python `str` / `"%s"` of a dictionary value. -/
def pyValStr : PyVal → String
  | PyVal.str s => s
  | PyVal.int i => intStr i

/-- The table `pandas.read_html` produces, reduced to what the code uses:
a header row and data rows (cells kept as rendered strings). -/
structure DataFrame where
  header : List String
  rows : List (List String)
deriving Repr, DecidableEq

/-- One CSV field under pandas' default minimal quoting. -/
def csvField (s : String) : String :=
  if s.data.contains ',' || s.data.contains '\x22' || s.data.contains '\n' then
    "\x22" ++ String.intercalate "\x22\x22" (s.splitOn "\x22") ++ "\x22"
  else s

/-- One CSV line. -/
def csvLine (fields : List String) : String :=
  String.intercalate "," (fields.map csvField)

/-- `DataFrame.to_csv(..., sep=',', index=False)`: header line, then every
row, each line terminated by a newline; no index column. -/
def toCsv (df : DataFrame) : String :=
  String.intercalate "\n" (csvLine df.header :: df.rows.map csvLine) ++ "\n"

/-- The text `print(df)` shows, reduced to its content: the header then the
rows, in order (pandas' column alignment is not modelled). -/
def dfRepr (df : DataFrame) : String :=
  String.intercalate "\n"
    (String.intercalate "  " df.header :: df.rows.map (String.intercalate "  "))

/-- `df.head(n)`: the first `n` rows. -/
def dfHead (df : DataFrame) (n : Nat) : DataFrame :=
  { df with rows := df.rows.take n }

/-- The instance fields of `IndexHistoricalData`.  `data` is an address (the
dictionary itself lives in the heap), `None` fields are `Option`. -/
structure Session where
  api_url : String
  headers : Option PyDict
  data : Option Nat
  query_time : PyDateTime
  response : Option String
  observations : Option DataFrame
  latest_price : PyNum

/-- A session together with the heap of dictionaries it can reference. -/
structure World where
  heap : Heap
  session : Session

/-- What one method call produced: the state reached (including mutations made
before any raise), the console lines printed, the `(filename, contents)`
pairs written, and the exception that escaped the call, if any. -/
structure Effect where
  state : World
  output : List String
  files : List (String × String)
  exc : Option PyExc

/-- `IndexHistoricalData.__init__(api_url)`: `query_time` is `datetime.now()`
at construction (passed in as `now`); `headers`, `data`, `response` and
`observations` start as `None` and `latest_price` as the int `0`. -/
def init_state (api_url : String) (now : PyDateTime) (heap : Heap) : World :=
  { heap := heap,
    session :=
      { api_url := api_url, headers := none, data := none, query_time := now,
        response := none, observations := none, latest_price := PyNum.int 0 } }

/-- `set_headers(headers)`. -/
def set_headers (w : World) (headers : PyDict) : World :=
  { w with session := { w.session with headers := some headers } }

/-- `set_form_data(data)`: stores the caller's dictionary by reference. -/
def set_form_data (w : World) (dataRef : Nat) : World :=
  { w with session := { w.session with data := some dataRef } }

/-- `set_time_frame_frequency(frequency)`: `self.data['frequency'] = frequency`.
With `data` still `None` this is `None[...] = ...`, a `TypeError`. -/
def set_time_frame_frequency (w : World) (frequency : String) : Except PyExc World :=
  match w.session.data with
  | none => Except.error (PyExc.typeError "NoneType object does not support item assignment")
  | some r =>
    Except.ok { w with heap := heapSet w.heap r (dictSet (w.heap r) "frequency" (PyVal.str frequency)) }

/-- The default of `set_start_end_date`'s `ending_date` parameter:
`datetime.datetime.now().strftime("%m/%d/%Y")`, evaluated once, when the
`def` statement executes at module load. -/
def set_start_end_date_default (module_load_time : PyDateTime) : String :=
  strftime_mdY module_load_time

/-- `set_start_end_date(starting_date, ending_date=...)`: writes `st_date`
then `end_date` into the shared dictionary.  `default_ending_date` is the
value the `def`-time default evaluated to; an omitted argument is `none`. -/
def set_start_end_date (default_ending_date : String) (w : World)
    (starting_date : String) (ending_date : Option String) : Except PyExc World :=
  let ed := ending_date.getD default_ending_date
  match w.session.data with
  | none => Except.error (PyExc.typeError "NoneType object does not support item assignment")
  | some r =>
    let h1 := heapSet w.heap r (dictSet (w.heap r) "st_date" (PyVal.str starting_date))
    Except.ok { w with heap := heapSet h1 r (dictSet (h1 r) "end_date" (PyVal.str ed)) }

/-- `set_sort_order(sorting_order)`. -/
def set_sort_order (w : World) (sorting_order : String) : Except PyExc World :=
  match w.session.data with
  | none => Except.error (PyExc.typeError "NoneType object does not support item assignment")
  | some r =>
    Except.ok { w with heap := heapSet w.heap r (dictSet (w.heap r) "sort_ord" (PyVal.str sorting_order)) }

/-- `get_latest_price()`.  `web` is the transport (`urllib.request.urlopen`):
either a `URLError` with its `reason`, or the page body.  `soupLastLast` is
the soup query: the `get_text()` of every `span` with `id='last_last'`.
The `try` around the parse catches `ValueError` only, so the `IndexError`
from `lines[0]` on an empty list and the `AttributeError` from the misspelt
`replae` call both escape to the caller. -/
def get_latest_price (web : String → Except String String)
    (soupLastLast : String → List String) (w : World) : Effect :=
  match w.session.data with
  | none =>
    { state := w, output := [], files := [],
      exc := some (PyExc.typeError "NoneType object is not subscriptable") }
  | some r =>
    match dictGet (w.heap r) "url" with
    | none => { state := w, output := [], files := [], exc := some (PyExc.keyError "url") }
    | some (PyVal.int _) =>
      -- urllib rejects a non-string URL before any request is made
      { state := w, output := [], files := [],
        exc := some (PyExc.typeError "url must be a string") }
    | some (PyVal.str url) =>
      match web url with
      | Except.error reason =>
        -- except urllib.error.URLError: print(err.reason); web_page stays None
        { state := w, output := [reason], files := [], exc := none }
      | Except.ok page =>
        match soupLastLast page with
        | [] =>
          -- lines[0] on an empty list: IndexError, not caught by except ValueError
          { state := w, output := [], files := [],
            exc := some (PyExc.indexError "list index out of range") }
        | str_price :: _ =>
          if str_price.data.contains ',' then
            -- float(str_price.replae(',', '')): the misspelt method raises
            { state := w, output := [], files := [],
              exc := some (PyExc.attributeError "str object has no attribute replae") }
          else
            match pyFloat str_price with
            | Except.error _ =>
              -- except ValueError: print('Fail to parse the latest price'); return
              { state := w, output := ["Fail to parse the latest price"], files := [], exc := none }
            | Except.ok p =>
              { state := { w with session := { w.session with latest_price := PyNum.float p } },
                output := [], files := [], exc := none }

/-- `get_historical_price()`.  `post` is `requests.post(...).content` as a
function of the endpoint, the form data (the dictionary currently referenced
by `self.data`, if any) and the headers; `readHtml` is `pandas.read_html`.
`self.response` is assigned before the parse, so it is updated even when the
parse raises; a `readHtml` exception propagates unchanged. -/
def get_historical_price (post : String → Option PyDict → Option PyDict → String)
    (readHtml : String → Except PyExc (List DataFrame)) (w : World) : Effect :=
  let body := post w.session.api_url (w.session.data.map w.heap) w.session.headers
  let w1 : World := { w with session := { w.session with response := some body } }
  match readHtml body with
  | Except.error e => { state := w1, output := [], files := [], exc := some e }
  | Except.ok [] =>
    -- [0] on an empty table list
    { state := w1, output := [], files := [], exc := some (PyExc.indexError "list index out of range") }
  | Except.ok (t :: _) =>
    { state := { w1 with session := { w1.session with observations := some t } },
      output := [], files := [], exc := none }

/-- `print_data()`: prints the summary line and the caption, then
`print(self.observations.head(10))`.  With `observations` still `None` the
attribute access `None.head` raises `AttributeError` after the first two
lines have been printed. -/
def print_data (w : World) : Effect :=
  match w.session.data with
  | none =>
    { state := w, output := [], files := [],
      exc := some (PyExc.typeError "NoneType object is not subscriptable") }
  | some r =>
    match dictGet (w.heap r) "name" with
    | none => { state := w, output := [], files := [], exc := some (PyExc.keyError "name") }
    | some nameVal =>
      let line1 := strftime_YmdHMS w.session.query_time ++ ": The latest price of " ++
        pyValStr nameVal ++ " is " ++ pyNumStr w.session.latest_price
      let line2 := "The retrieved historical prices (top 10) are shown below:"
      match w.session.observations with
      | none =>
        { state := w, output := [line1, line2], files := [],
          exc := some (PyExc.attributeError "NoneType object has no attribute head") }
      | some df =>
        { state := w, output := [line1, line2, dfRepr (dfHead df 10)], files := [], exc := none }

/-- `save_historical_data_to_csv()`: `self.observations.to_csv(...)`.  The
callee `self.observations.to_csv` is evaluated before the filename argument,
so with `observations` still `None` the call raises `AttributeError` and no
file is written.  The filename is
`self.data['name'] + '_' + self.query_time.strftime('%Y%m%d_%H%M%S') + '.csv'`. -/
def save_historical_data_to_csv (w : World) : Effect :=
  match w.session.observations with
  | none =>
    { state := w, output := [], files := [],
      exc := some (PyExc.attributeError "NoneType object has no attribute to_csv") }
  | some df =>
    match w.session.data with
    | none =>
      { state := w, output := [], files := [],
        exc := some (PyExc.typeError "NoneType object is not subscriptable") }
    | some r =>
      match dictGet (w.heap r) "name" with
      | none => { state := w, output := [], files := [], exc := some (PyExc.keyError "name") }
      | some (PyVal.int _) =>
        -- int + str concatenation in the filename expression
        { state := w, output := [], files := [],
          exc := some (PyExc.typeError "unsupported operand types for +") }
      | some (PyVal.str name) =>
        let fname := name ++ "_" ++ strftime_Ymd_HMS w.session.query_time ++ ".csv"
        { state := w, output := ["Save completed!"], files := [(fname, toCsv df)], exc := none }

/-- The module-level `CFD` dictionary. -/
def CFD : PyDict :=
  [("name", PyVal.str "CFD"),
   ("curr_id", PyVal.int 8861),
   ("smlID", PyVal.int 300084),
   ("header", PyVal.str "London Gas Oil Futures"),
   ("sort_col", PyVal.str "date"),
   ("action", PyVal.str "historical_data"),
   ("url", PyVal.str "https://www.investing.com/commodities/london-gas-oil-historical-data")]

/-- The module-level `HEADERS` dictionary. -/
def HEADERS : PyDict :=
  [("User-Agent", PyVal.str "Mozilla/5.0"),
   ("referer", PyVal.str "https://www.investing.com"),
   ("host", PyVal.str "www.investing.com"),
   ("X-Requested-With", PyVal.str "XMLHttpRequest")]

/-! ### Helper lemmas about the dictionary, heap and formatting models -/

theorem dictGet_dictSet_self (d : PyDict) (k : String) (v : PyVal) :
    dictGet (dictSet d k v) k = some v := by
  induction d with
  | nil => simp [dictSet, dictGet]
  | cons p rest ih =>
    obtain ⟨k1, v1⟩ := p
    by_cases h : k1 = k
    · simp [dictSet, dictGet, h]
    · simp [dictSet, dictGet, h, ih]

theorem heapSet_same (h : Heap) (r : Nat) (d : PyDict) : heapSet h r d r = d := by
  simp [heapSet]

theorem digitChar_isDigit (n : Nat) : (digitChar n).isDigit = true := by
  unfold digitChar
  have h : n % 10 < 10 := by omega
  generalize hg : n % 10 = m at *
  interval_cases m <;> decide

theorem pad2_length (n : Nat) : (pad2 n).length = 2 := rfl

theorem pad4_length (n : Nat) : (pad4 n).length = 4 := rfl

theorem pad2_all_digits (n : Nat) : (pad2 n).data.all Char.isDigit = true := by
  simp [pad2, digitChar_isDigit]

theorem pad4_all_digits (n : Nat) : (pad4 n).data.all Char.isDigit = true := by
  simp [pad4, digitChar_isDigit]

/-! ### Concrete fixtures, following the `__main__` block of the source -/

/-- The endpoint the `__main__` block passes to the constructor. -/
def apiUrl0 : String := "https://www.investing.com/instruments/HistoricalDataAjax"

/-- A concrete construction-time `datetime.now()`. -/
def qt0 : PyDateTime := ⟨2019, 3, 1, 10, 30, 0⟩

/-- A heap whose address `0` holds the module-level `CFD` dictionary. -/
def heap0 : Heap := fun _ => CFD

/-- The session exactly as `__main__` prepares it before any setter beyond
`set_headers`/`set_form_data` runs: `data` references the caller's `CFD`. -/
def w_main : World := set_form_data (set_headers (init_state apiUrl0 qt0 heap0) HEADERS) 0

/-- A transport that succeeds with a fixed page body. -/
def web_ok : String → Except String String := fun _ => Except.ok "<html>page</html>"

/-- A transport that fails with a name-resolution `URLError`. -/
def web_down : String → Except String String :=
  fun _ => Except.error "[Errno -2] Name or service not known"

/-- A soup in which the `last_last` span holds a comma-separated price. -/
def soup_comma : String → List String := fun _ => ["1,234.56"]

/-- A soup with no `span` element carrying `id='last_last'`. -/
def soup_none : String → List String := fun _ => []

/-- A soup whose `last_last` span holds text that is not a number. -/
def soup_na : String → List String := fun _ => ["N/A"]

deriving instance DecidableEq for Except

/-! ### Claim theorems -/

/-- C1: the claim says a price string containing a thousands-separator comma
has the comma stripped and converts to the correct float (`"1,234.56"` to
`1234.56`, stored in `latest_price`).  The code instead calls the misspelt
method `replae`, so the comma branch raises `AttributeError`, which the
`except ValueError` handler does not catch: the call crashes and
`latest_price` keeps its initial `0`.  The last conjunct shows the intended
operation — an actual `replace` followed by `float` — would indeed give
`1234.56`, so the claim describes the intent and the code is a slip. -/
theorem c1_comma_price_crashes :
    (get_latest_price web_ok soup_comma w_main).exc =
        some (PyExc.attributeError "str object has no attribute replae")
    ∧ (get_latest_price web_ok soup_comma w_main).state.session.latest_price = PyNum.int 0
    ∧ (get_latest_price web_ok soup_comma w_main).output = []
    ∧ pyFloat (pyReplace "1,234.56" "," "") = Except.ok ⟨123456, 2⟩
    ∧ DecFloat.toRat ⟨123456, 2⟩ = (1234.56 : Rat) := by
  refine ⟨by decide, by decide, by decide, by decide, by norm_num [DecFloat.toRat]⟩

/-- C3: when the transport request fails with a `URLError`, `get_latest_price`
prints the error reason and returns without raising; the whole state — in
particular `latest_price` — is unchanged, `latest_price` is `0` from
construction until a fetch succeeds, and re-invoking after the failed fetch
changes nothing. -/
theorem c3_transport_failure_preserves_price
    (web : String → Except String String) (soupLastLast : String → List String)
    (w : World) (r : Nat) (url reason : String)
    (api : String) (now : PyDateTime) (h0 : Heap)
    (hd : w.session.data = some r)
    (hu : dictGet (w.heap r) "url" = some (PyVal.str url))
    (hw : web url = Except.error reason) :
    get_latest_price web soupLastLast w =
      { state := w, output := [reason], files := [], exc := none }
    ∧ (init_state api now h0).session.latest_price = PyNum.int 0
    ∧ get_latest_price web soupLastLast ((get_latest_price web soupLastLast w).state) =
        get_latest_price web soupLastLast w := by
  have h1 : get_latest_price web soupLastLast w =
      { state := w, output := [reason], files := [], exc := none } := by
    simp [get_latest_price, hd, hu, hw]
  refine ⟨h1, rfl, ?_⟩
  rw [h1]
  exact h1

/-- C3 witness: the session of the `__main__` block, a transport that fails
with a name-resolution error. -/
theorem c3_transport_failure_preserves_price_witness :
    get_latest_price web_down soup_none w_main =
      { state := w_main, output := ["[Errno -2] Name or service not known"], files := [], exc := none }
    ∧ (init_state apiUrl0 qt0 heap0).session.latest_price = PyNum.int 0
    ∧ get_latest_price web_down soup_none ((get_latest_price web_down soup_none w_main).state) =
        get_latest_price web_down soup_none w_main :=
  c3_transport_failure_preserves_price web_down soup_none w_main 0
    "https://www.investing.com/commodities/london-gas-oil-historical-data"
    "[Errno -2] Name or service not known" apiUrl0 qt0 heap0 rfl (by decide) rfl

/-- C4 counterexample: with the transport succeeding but no element carrying
the `last_last` marker in the page, `lines[0]` raises `IndexError`, which the
`except ValueError` handler does not catch: the exception reaches the caller
and nothing is logged — against the claim that the operation logs a parse
failure and returns without raising. -/
theorem c4_missing_marker_raises_index_error :
    (get_latest_price web_ok soup_none w_main).exc =
        some (PyExc.indexError "list index out of range")
    ∧ (get_latest_price web_ok soup_none w_main).output = [] := by
  exact ⟨by decide, by decide⟩

/-- C4 as amended: when the transport succeeds, a marker element is found,
its text has no comma and `float` raises `ValueError`, the handler catches
it, prints `Fail to parse the latest price` and returns with the state —
in particular `latest_price` — unchanged and no exception. -/
theorem c4_value_error_is_caught_and_logged
    (web : String → Except String String) (soupLastLast : String → List String)
    (w : World) (r : Nat) (url page sp : String) (rest : List String) (e : PyExc)
    (hd : w.session.data = some r)
    (hu : dictGet (w.heap r) "url" = some (PyVal.str url))
    (hw : web url = Except.ok page)
    (hs : soupLastLast page = sp :: rest)
    (hc : sp.data.contains ',' = false)
    (hf : pyFloat sp = Except.error e) :
    get_latest_price web soupLastLast w =
      { state := w, output := ["Fail to parse the latest price"], files := [], exc := none } := by
  have hc2 : ¬(',' ∈ sp.data) := by simpa using hc
  simp [get_latest_price, hd, hu, hw, hs, hc2, hf]

/-- C4 witness: the `__main__` session and a page whose `last_last` span
holds the text `N/A`. -/
theorem c4_value_error_is_caught_and_logged_witness :
    get_latest_price web_ok soup_na w_main =
      { state := w_main, output := ["Fail to parse the latest price"], files := [], exc := none } :=
  c4_value_error_is_caught_and_logged web_ok soup_na w_main 0
    "https://www.investing.com/commodities/london-gas-oil-historical-data"
    "<html>page</html>" "N/A" [] (PyExc.valueError "could not convert string to float: N/A")
    rfl (by decide) rfl rfl (by decide) (by decide)

/-- C10: on a freshly constructed session `data` is `None`, and each field
setter as well as `get_latest_price` faults with a `TypeError` from
subscripting `None`; no state is produced by the setters and
`get_latest_price` leaves the state — in particular `latest_price` —
untouched. -/
theorem c10_unset_data_faults
    (api : String) (now : PyDateTime) (h0 : Heap)
    (w : World) (freq st so ds : String) (eo : Option String)
    (web : String → Except String String) (soupLastLast : String → List String)
    (hd : w.session.data = none) :
    (init_state api now h0).session.data = none
    ∧ set_time_frame_frequency w freq =
        Except.error (PyExc.typeError "NoneType object does not support item assignment")
    ∧ set_start_end_date ds w st eo =
        Except.error (PyExc.typeError "NoneType object does not support item assignment")
    ∧ set_sort_order w so =
        Except.error (PyExc.typeError "NoneType object does not support item assignment")
    ∧ get_latest_price web soupLastLast w =
        { state := w, output := [], files := [],
          exc := some (PyExc.typeError "NoneType object is not subscriptable") } := by
  refine ⟨rfl, ?_, ?_, ?_, ?_⟩ <;>
    simp [set_time_frame_frequency, set_start_end_date, set_sort_order, get_latest_price, hd]

/-- C10 witness: the freshly constructed session of the `__main__` block,
with the setter arguments the block would pass next. -/
theorem c10_unset_data_faults_witness :
    (init_state apiUrl0 qt0 heap0).session.data = none
    ∧ set_time_frame_frequency (init_state apiUrl0 qt0 heap0) "Daily" =
        Except.error (PyExc.typeError "NoneType object does not support item assignment")
    ∧ set_start_end_date (strftime_mdY qt0) (init_state apiUrl0 qt0 heap0) "1/1/2017" none =
        Except.error (PyExc.typeError "NoneType object does not support item assignment")
    ∧ set_sort_order (init_state apiUrl0 qt0 heap0) "DESC" =
        Except.error (PyExc.typeError "NoneType object does not support item assignment")
    ∧ get_latest_price web_down soup_none (init_state apiUrl0 qt0 heap0) =
        { state := init_state apiUrl0 qt0 heap0, output := [], files := [],
          exc := some (PyExc.typeError "NoneType object is not subscriptable") } :=
  c10_unset_data_faults apiUrl0 qt0 heap0 (init_state apiUrl0 qt0 heap0)
    "Daily" "1/1/2017" "DESC" (strftime_mdY qt0) none web_down soup_none rfl

/-- A POST transport returning a body with no HTML table in it. -/
def post_nodata : String → Option PyDict → Option PyDict → String :=
  fun _ _ _ => "<html><div>no data</div></html>"

/-- `pandas.read_html` on a body containing no table: it raises
`ValueError("No tables found")`. -/
def readHtml_nodata : String → Except PyExc (List DataFrame) :=
  fun _ => Except.error (PyExc.valueError "No tables found")

/-- C2 counterexample: on a response body with no parseable table,
`get_historical_price` does not surface a typed "no tabular data found"
error — the raw `ValueError` of the table parser propagates unchanged to the
caller (and `observations` stays unset). -/
theorem c2_no_table_raw_value_error :
    (get_historical_price post_nodata readHtml_nodata w_main).exc =
        some (PyExc.valueError "No tables found")
    ∧ isStateError (get_historical_price post_nodata readHtml_nodata w_main).exc = false
    ∧ (get_historical_price post_nodata readHtml_nodata w_main).state.session.observations = none := by
  refine ⟨by decide, by decide, by decide⟩

/-- C2 as amended: whenever the table parser raises on the response body,
`get_historical_price` propagates that exact exception to the caller, with
`response` already overwritten by the new body and `observations` unchanged;
no wrapping into a typed error happens. -/
theorem c2_parser_error_propagates
    (post : String → Option PyDict → Option PyDict → String)
    (readHtml : String → Except PyExc (List DataFrame))
    (w : World) (e : PyExc)
    (hr : readHtml (post w.session.api_url (w.session.data.map w.heap) w.session.headers) =
      Except.error e) :
    get_historical_price post readHtml w =
      { state := { w with session := { w.session with
            response := some (post w.session.api_url (w.session.data.map w.heap) w.session.headers) } },
        output := [], files := [], exc := some e } := by
  simp [get_historical_price, hr]

/-- C2 witness: the `__main__` session against a tableless response. -/
theorem c2_parser_error_propagates_witness :
    get_historical_price post_nodata readHtml_nodata w_main =
      { state := { w_main with session := { w_main.session with
            response := some (post_nodata w_main.session.api_url
              (w_main.session.data.map w_main.heap) w_main.session.headers) } },
        output := [], files := [], exc := some (PyExc.valueError "No tables found") } :=
  c2_parser_error_propagates post_nodata readHtml_nodata w_main
    (PyExc.valueError "No tables found") rfl

/-- C5 counterexample: exporting before any historical fetch does not raise a
descriptive `StateError` — the attribute access `None.to_csv` raises
`AttributeError`; no file is created. -/
theorem c5_export_before_fetch_attribute_error :
    (save_historical_data_to_csv w_main).exc =
        some (PyExc.attributeError "NoneType object has no attribute to_csv")
    ∧ isStateError (save_historical_data_to_csv w_main).exc = false
    ∧ (save_historical_data_to_csv w_main).files = []
    ∧ (save_historical_data_to_csv w_main).output = [] := by
  refine ⟨by decide, by decide, by decide, by decide⟩

/-- C5 as amended: with `observations` unset, the export raises
`AttributeError` (from dereferencing `None`) before anything else happens —
no file is created, nothing is printed, the state is unchanged. -/
theorem c5_export_unset_observations
    (w : World) (hobs : w.session.observations = none) :
    save_historical_data_to_csv w =
      { state := w, output := [], files := [],
        exc := some (PyExc.attributeError "NoneType object has no attribute to_csv") } := by
  simp [save_historical_data_to_csv, hobs]

/-- C5 witness: the `__main__` session before any fetch. -/
theorem c5_export_unset_observations_witness :
    save_historical_data_to_csv w_main =
      { state := w_main, output := [], files := [],
        exc := some (PyExc.attributeError "NoneType object has no attribute to_csv") } :=
  c5_export_unset_observations w_main rfl

/-- C8 counterexample: `set_form_data` stores the caller's `CFD` dictionary
by reference, so the very next setter mutates the caller's original object:
after `set_time_frame_frequency('Daily')` the dictionary at the caller's
address has gained a `frequency` key and is no longer equal to `CFD`. -/
theorem c8_caller_config_mutated :
    (set_time_frame_frequency w_main "Daily").map (fun w => w.heap 0) =
      Except.ok (dictSet CFD "frequency" (PyVal.str "Daily"))
    ∧ dictSet CFD "frequency" (PyVal.str "Daily") ≠ CFD := by
  refine ⟨by decide, by decide⟩

/-- C8 as amended: the session aliases the caller's configuration mapping;
every field setter — frequency, date range and sort order — writes through
the stored reference, so each one updates the caller's original dictionary in
place, adding or overwriting the corresponding fields. -/
theorem c8_setter_mutates_shared_config
    (w : World) (r : Nat) (freq st ed so ds : String)
    (hd : w.session.data = some r) :
    (set_time_frame_frequency w freq).map (fun w1 => w1.heap r) =
      Except.ok (dictSet (w.heap r) "frequency" (PyVal.str freq))
    ∧ (set_start_end_date ds w st (some ed)).map (fun w1 => w1.heap r) =
      Except.ok (dictSet (dictSet (w.heap r) "st_date" (PyVal.str st)) "end_date" (PyVal.str ed))
    ∧ (set_sort_order w so).map (fun w1 => w1.heap r) =
      Except.ok (dictSet (w.heap r) "sort_ord" (PyVal.str so)) := by
  refine ⟨?_, ?_, ?_⟩ <;>
    simp [set_time_frame_frequency, set_start_end_date, set_sort_order, hd,
      heapSet_same, Except.map]

/-- C8 witness: the `__main__` session, whose `data` references the module's
`CFD` dictionary at address `0`; all three setter calls of the `__main__`
block write into the caller's dictionary. -/
theorem c8_setter_mutates_shared_config_witness :
    ((set_time_frame_frequency w_main "Daily").map (fun w1 => w1.heap 0) =
      Except.ok (dictSet (w_main.heap 0) "frequency" (PyVal.str "Daily"))
    ∧ (set_start_end_date (strftime_mdY qt0) w_main "1/1/2017" (some "12/31/2018")).map
        (fun w1 => w1.heap 0) =
      Except.ok (dictSet (dictSet (w_main.heap 0) "st_date" (PyVal.str "1/1/2017"))
        "end_date" (PyVal.str "12/31/2018"))
    ∧ (set_sort_order w_main "DESC").map (fun w1 => w1.heap 0) =
      Except.ok (dictSet (w_main.heap 0) "sort_ord" (PyVal.str "DESC"))) :=
  c8_setter_mutates_shared_config w_main 0 "Daily" "1/1/2017" "12/31/2018" "DESC"
    (strftime_mdY qt0) rfl

/-- C9: the default ending date is the `strftime` of the module-load instant,
fixed when the `def` statement is evaluated.  Any two calls that omit the
ending date — whatever the state of the session at each call — write the
identical `end_date` string, the date at definition time; the call instant
does not enter the semantics at all. -/
theorem c9_default_end_date_fixed_at_definition
    (module_load_time : PyDateTime)
    (w1 w2 : World) (r1 r2 : Nat) (s1 s2 : String)
    (hd1 : w1.session.data = some r1) (hd2 : w2.session.data = some r2) :
    (set_start_end_date (set_start_end_date_default module_load_time) w1 s1 none).map
        (fun w => dictGet (w.heap r1) "end_date") =
      Except.ok (some (PyVal.str (strftime_mdY module_load_time)))
    ∧ (set_start_end_date (set_start_end_date_default module_load_time) w2 s2 none).map
        (fun w => dictGet (w.heap r2) "end_date") =
      Except.ok (some (PyVal.str (strftime_mdY module_load_time)))
    ∧ (set_start_end_date (set_start_end_date_default module_load_time) w1 s1 none).map
        (fun w => dictGet (w.heap r1) "end_date") =
      (set_start_end_date (set_start_end_date_default module_load_time) w2 s2 none).map
        (fun w => dictGet (w.heap r2) "end_date") := by
  have key : ∀ (w : World) (r : Nat) (s : String), w.session.data = some r →
      (set_start_end_date (set_start_end_date_default module_load_time) w s none).map
        (fun w => dictGet (w.heap r) "end_date") =
      Except.ok (some (PyVal.str (strftime_mdY module_load_time))) := by
    intro w r s hd
    simp [set_start_end_date, hd, set_start_end_date_default, heapSet_same,
      dictGet_dictSet_self, Except.map]
  refine ⟨key w1 r1 s1 hd1, key w2 r2 s2 hd2, ?_⟩
  rw [key w1 r1 s1 hd1, key w2 r2 s2 hd2]

/-- C9 witness: two omitted-argument calls on the `__main__` session, with
the module loaded at `qt0`; both set `end_date` to `03/01/2019`. -/
theorem c9_default_end_date_fixed_at_definition_witness :
    (set_start_end_date (set_start_end_date_default qt0) w_main "1/1/2017" none).map
        (fun w => dictGet (w.heap 0) "end_date") =
      Except.ok (some (PyVal.str (strftime_mdY qt0)))
    ∧ (set_start_end_date (set_start_end_date_default qt0) w_main "6/1/2018" none).map
        (fun w => dictGet (w.heap 0) "end_date") =
      Except.ok (some (PyVal.str (strftime_mdY qt0)))
    ∧ (set_start_end_date (set_start_end_date_default qt0) w_main "1/1/2017" none).map
        (fun w => dictGet (w.heap 0) "end_date") =
      (set_start_end_date (set_start_end_date_default qt0) w_main "6/1/2018" none).map
        (fun w => dictGet (w.heap 0) "end_date") :=
  c9_default_end_date_fixed_at_definition qt0 w_main w_main 0 0 "1/1/2017" "6/1/2018" rfl rfl

/-- A three-row historical table like the one the endpoint returns. -/
def df0 : DataFrame :=
  { header := ["Date", "Price", "Open", "High", "Low", "Change %"],
    rows := [["Mar 01, 2019", "666.25", "660.50", "668.25", "658.75", "0.87%"],
             ["Feb 28, 2019", "660.50", "655.00", "662.00", "654.25", "0.42%"],
             ["Feb 27, 2019", "657.75", "652.50", "659.00", "651.75", "0.15%"]] }

/-- The `__main__` session after a successful historical fetch of `df0`. -/
def w_full : World :=
  { w_main with session := { w_main.session with observations := some df0 } }

/-- C6: with a populated series, the export writes exactly one file whose
contents are the full series as comma-separated lines with a header row and
no index column (`toCsv`), named
`<name>_<strftime("%Y%m%d_%H%M%S")>.csv`; that timestamp part is an
eight-digit date, an underscore and a six-digit time, so the filename matches
`<name>_<8 digits>_<6 digits>.csv`. -/
theorem c6_export_writes_named_csv
    (w : World) (r : Nat) (df : DataFrame) (name : String)
    (hobs : w.session.observations = some df)
    (hd : w.session.data = some r)
    (hn : dictGet (w.heap r) "name" = some (PyVal.str name))
    (_hv : ValidDateTime w.session.query_time) :
    save_historical_data_to_csv w =
      { state := w, output := ["Save completed!"],
        files := [(name ++ "_" ++ strftime_Ymd_HMS w.session.query_time ++ ".csv", toCsv df)],
        exc := none }
    ∧ strftime_Ymd_HMS w.session.query_time =
        (pad4 w.session.query_time.year ++ pad2 w.session.query_time.month ++
            pad2 w.session.query_time.day) ++ "_" ++
          (pad2 w.session.query_time.hour ++ pad2 w.session.query_time.minute ++
            pad2 w.session.query_time.second)
    ∧ (pad4 w.session.query_time.year ++ pad2 w.session.query_time.month ++
        pad2 w.session.query_time.day).length = 8
    ∧ ((pad4 w.session.query_time.year ++ pad2 w.session.query_time.month ++
        pad2 w.session.query_time.day).data.all Char.isDigit) = true
    ∧ (pad2 w.session.query_time.hour ++ pad2 w.session.query_time.minute ++
        pad2 w.session.query_time.second).length = 6
    ∧ ((pad2 w.session.query_time.hour ++ pad2 w.session.query_time.minute ++
        pad2 w.session.query_time.second).data.all Char.isDigit) = true := by
  refine ⟨by simp [save_historical_data_to_csv, hobs, hd, hn], rfl, ?_, ?_, ?_, ?_⟩
  · simp [String.length_append, pad4_length, pad2_length]
  · simp [String.data_append, List.all_append, pad4_all_digits, pad2_all_digits]
  · simp [String.length_append, pad2_length]
  · simp [String.data_append, List.all_append, pad2_all_digits]

/-- C6 witness: the populated `__main__` session; the file is
`CFD_20190301_103000.csv` holding the csv of `df0`. -/
theorem c6_export_writes_named_csv_witness :
    (save_historical_data_to_csv w_full =
      { state := w_full, output := ["Save completed!"],
        files := [("CFD" ++ "_" ++ strftime_Ymd_HMS w_full.session.query_time ++ ".csv", toCsv df0)],
        exc := none }
    ∧ strftime_Ymd_HMS w_full.session.query_time =
        (pad4 w_full.session.query_time.year ++ pad2 w_full.session.query_time.month ++
            pad2 w_full.session.query_time.day) ++ "_" ++
          (pad2 w_full.session.query_time.hour ++ pad2 w_full.session.query_time.minute ++
            pad2 w_full.session.query_time.second)
    ∧ (pad4 w_full.session.query_time.year ++ pad2 w_full.session.query_time.month ++
        pad2 w_full.session.query_time.day).length = 8
    ∧ ((pad4 w_full.session.query_time.year ++ pad2 w_full.session.query_time.month ++
        pad2 w_full.session.query_time.day).data.all Char.isDigit) = true
    ∧ (pad2 w_full.session.query_time.hour ++ pad2 w_full.session.query_time.minute ++
        pad2 w_full.session.query_time.second).length = 6
    ∧ ((pad2 w_full.session.query_time.hour ++ pad2 w_full.session.query_time.minute ++
        pad2 w_full.session.query_time.second).data.all Char.isDigit) = true) :=
  c6_export_writes_named_csv w_full 0 df0 "CFD" rfl rfl (by decide)
    (by unfold ValidDateTime; decide)

/-- C7 counterexample: with `observations` unset, `print_data` does not
report "no data to display" — it prints the first two lines and then the
attribute access `None.head` raises `AttributeError`. -/
theorem c7_no_observations_not_reported :
    (print_data w_main).exc = some (PyExc.attributeError "NoneType object has no attribute head")
    ∧ (print_data w_main).output.contains "no data to display" = false
    ∧ isStateError (print_data w_main).exc = false := by
  refine ⟨by decide, by decide, by decide⟩

/-- C7 as amended: with `observations` populated, `print_data` writes, in
order, the summary line (query timestamp as `YYYY-MM-DD HH:MM:SS`, the
instrument display name, the latest price), the caption line, and the first
at-most-10 rows of the series in their stored order (all rows when there are
10 or fewer); it returns nothing and raises nothing.  With `observations`
unset it raises `AttributeError` after the first two lines instead of
reporting "no data to display". -/
theorem c7_summary_lines
    (w : World) (r : Nat) (nameVal : PyVal) (df : DataFrame)
    (hd : w.session.data = some r)
    (hn : dictGet (w.heap r) "name" = some nameVal)
    (hobs : w.session.observations = some df) :
    print_data w =
      { state := w,
        output := [strftime_YmdHMS w.session.query_time ++ ": The latest price of " ++
            pyValStr nameVal ++ " is " ++ pyNumStr w.session.latest_price,
          "The retrieved historical prices (top 10) are shown below:",
          dfRepr (dfHead df 10)],
        files := [], exc := none }
    ∧ (dfHead df 10).rows = df.rows.take 10
    ∧ (dfHead df 10).rows.length = min 10 df.rows.length
    ∧ (df.rows.length ≤ 10 → dfHead df 10 = df) := by
  refine ⟨by simp [print_data, hd, hn, hobs], rfl, ?_, ?_⟩
  · simp [dfHead, List.length_take]
  · intro h
    simp [dfHead, List.take_of_length_le h]

/-- C7 witness: the populated `__main__` session, three rows (hence all of
them shown). -/
theorem c7_summary_lines_witness :
    (print_data w_full =
      { state := w_full,
        output := [strftime_YmdHMS w_full.session.query_time ++ ": The latest price of " ++
            pyValStr (PyVal.str "CFD") ++ " is " ++ pyNumStr w_full.session.latest_price,
          "The retrieved historical prices (top 10) are shown below:",
          dfRepr (dfHead df0 10)],
        files := [], exc := none }
    ∧ (dfHead df0 10).rows = df0.rows.take 10
    ∧ (dfHead df0 10).rows.length = min 10 df0.rows.length
    ∧ (df0.rows.length ≤ 10 → dfHead df0 10 = df0)) :=
  c7_summary_lines w_full 0 (PyVal.str "CFD") df0 rfl (by decide) rfl
